import Mathlib

/-!
Shallow embedding of the browser-side cart / orders / services client
(`src/unnamed/part_001` (cart), `src/frontend/js/orders.js`,
`src/frontend/js/products.js`, `src/frontend/js/statistics.js`,
`src/frontend/js/auth.js`).

Conventions of the embedding:
* JS numbers that hold ids and quantities are modelled as `Int`,
  prices as `ℚ` (the claims under scrutiny involve only exact
  ring arithmetic on these values).
* A nullable field (`internal_price`, optional strings) is `Option _`.
* The cart, a JS object keyed by supplier id, is an association list
  `List (Int × CartGroup)`; JS enumerates integer-like keys in
  ascending numeric order, the list order stands in for that
  enumeration order (none of the claims depends on which order it is).
* DOM / network effects are made explicit: a handler returns the list
  of toast messages it shows, the requests it issues, the value it
  writes back into an input field, together with the new cart state.
-/

namespace Bookkeep

/-- The JS idiom `v || d` on an optional string: `d` is used when the
value is absent (`null`/`undefined`) or the empty string (both falsy). -/
def jsOrStr (v : Option String) (d : String) : String :=
  match v with
  | none => d
  | some s => if s = "" then d else s

/-- A cart line item, `part_001` lines 25-35. -/
structure CartItem where
  product_id : Int
  name : String
  brand : String
  model : String
  specification : String
  internal_price : Option ℚ
  tax_included_price : ℚ
  quantity : Int
  muted : Bool
deriving DecidableEq

/-- A supplier group of the cart, `part_001` line 5 and lines 13-18. -/
structure CartGroup where
  supplierName : String
  items : List CartItem
deriving DecidableEq

/-- The cart: JS object `{ supplierId: { supplierName, items } }`,
`part_001` line 5. -/
abbrev Cart := List (Int × CartGroup)

/-- A product as returned by `GET /products/{id}`. -/
structure Product where
  id : Int
  supplier_id : Int
  supplier_name : Option String
  name : String
  brand : Option String
  model : Option String
  specification : Option String
  internal_price : Option ℚ
  tax_included_price : ℚ
deriving DecidableEq

/-- The logged-in user (`currentUser`). -/
structure User where
  id : Int
  username : String
  user_type : String
deriving DecidableEq

/-! ### Cart totals (`part_001` lines 211-234 and 286-314) -/

/-- One iteration of the totals loop, `part_001` lines 216-225: a muted
item is skipped; the internal price contributes only for a user that is
neither `厂家` nor `学生用户` and when `internal_price` is non-null
(`(item.internal_price || 0)` equals the value itself there); the
tax-included price always contributes. -/
def cartTotalsStep (userType : String) (acc : ℚ × ℚ) (item : CartItem) : ℚ × ℚ :=
  if item.muted then acc
  else
    let acc1 :=
      if userType ≠ "厂家" ∧ userType ≠ "学生用户" ∧ item.internal_price.isSome then
        (acc.1 + item.internal_price.getD 0 * (item.quantity : ℚ), acc.2)
      else acc
    (acc1.1, acc1.2 + item.tax_included_price * (item.quantity : ℚ))

/-- The totals accumulation of `renderCartContent`, `part_001` lines
211-226: `(totalInternal, totalTaxIncluded)`. -/
def renderCartTotalsSums (userType : String) (cart : Cart) : ℚ × ℚ :=
  cart.foldl (fun acc p => p.2.items.foldl (cartTotalsStep userType) acc) (0, 0)

/-- The totals accumulation of `updateCartTotals`, `part_001` lines
287-301 (textually the same loop as in `renderCartContent`). -/
def updateCartTotalsSums (userType : String) (cart : Cart) : ℚ × ℚ :=
  cart.foldl (fun acc p => p.2.items.foldl (cartTotalsStep userType) acc) (0, 0)

/-- The total text built by `renderCartContent`, `part_001` lines
228-234; `fmt` abstracts `formatCurrency` (defined in a shared utility
file that is not part of the sources; none of the claims depends on its
output shape). -/
def renderCartTotalText (fmt : ℚ → String) (userType : String) (cart : Cart) : String :=
  let s := renderCartTotalsSums userType cart
  "总计：" ++
    (if userType ≠ "厂家" ∧ userType ≠ "学生用户" then
      "内部" ++ fmt s.1 ++ "/含税" ++ fmt s.2
    else
      "含税" ++ fmt s.2)

/-- The total text written by `updateCartTotals`, `part_001` lines
306-311: note the branch tests only `userType ≠ 厂家`, without the
`学生用户` test that `renderCartContent` has. -/
def updateCartTotalsText (fmt : ℚ → String) (userType : String) (cart : Cart) : String :=
  let s := updateCartTotalsSums userType cart
  "总计：" ++
    (if userType ≠ "厂家" then
      "内部" ++ fmt s.1 ++ "/含税" ++ fmt s.2
    else
      "含税" ++ fmt s.2)

/-! ### Specification-side sums for claim C1 -/

/-- All line items of the cart, in enumeration order. -/
def cartLineItems (cart : Cart) : List CartItem :=
  (cart.map (fun p => p.2.items)).flatten

/-- Spec-side tax-included total: the sum over all non-muted line items
of tax-included price times quantity. -/
def specTaxIncludedTotal (cart : Cart) : ℚ :=
  (((cartLineItems cart).filter (fun i => !i.muted)).map
    (fun i => i.tax_included_price * (i.quantity : ℚ))).sum

/-- Spec-side internal total: the sum over all non-muted line items
with a non-null internal price of internal price times quantity. -/
def specInternalTotal (cart : Cart) : ℚ :=
  (((cartLineItems cart).filter (fun i => !i.muted && i.internal_price.isSome)).map
    (fun i => i.internal_price.getD 0 * (i.quantity : ℚ))).sum

/-- Per-item contribution to the tax-included total. -/
def itemTaxContrib (i : CartItem) : ℚ :=
  if i.muted then 0 else i.tax_included_price * (i.quantity : ℚ)

/-- Per-item contribution to the internal total for a given user type. -/
def itemInternalContrib (userType : String) (i : CartItem) : ℚ :=
  if ¬i.muted ∧ userType ≠ "厂家" ∧ userType ≠ "学生用户" ∧ i.internal_price.isSome then
    i.internal_price.getD 0 * (i.quantity : ℚ)
  else 0

theorem cartTotalsStep_eq (ut : String) (acc : ℚ × ℚ) (i : CartItem) :
    cartTotalsStep ut acc i = (acc.1 + itemInternalContrib ut i, acc.2 + itemTaxContrib i) := by
  unfold cartTotalsStep itemInternalContrib itemTaxContrib
  by_cases hm : i.muted
  · simp [hm]
  · by_cases hc : ut ≠ "厂家" ∧ ut ≠ "学生用户" ∧ i.internal_price.isSome
    · simp [hm, hc]
    · simp [hm, hc]

theorem foldl_cartTotalsStep (ut : String) (l : List CartItem) (acc : ℚ × ℚ) :
    l.foldl (cartTotalsStep ut) acc =
      (acc.1 + (l.map (itemInternalContrib ut)).sum, acc.2 + (l.map itemTaxContrib).sum) := by
  induction l generalizing acc with
  | nil => simp
  | cons i rest ih =>
      simp only [List.foldl_cons, List.map_cons, List.sum_cons, cartTotalsStep_eq, ih,
        Prod.mk.injEq]
      constructor <;> ring

theorem foldl_groups_cartTotalsStep (ut : String) (gs : Cart) (acc : ℚ × ℚ) :
    gs.foldl (fun acc p => p.2.items.foldl (cartTotalsStep ut) acc) acc =
      (acc.1 + ((cartLineItems gs).map (itemInternalContrib ut)).sum,
       acc.2 + ((cartLineItems gs).map itemTaxContrib).sum) := by
  induction gs generalizing acc with
  | nil => simp [cartLineItems]
  | cons g rest ih =>
      rw [List.foldl_cons, foldl_cartTotalsStep, ih]
      simp only [cartLineItems, List.map_cons, List.flatten_cons, List.map_append,
        List.sum_append, Prod.mk.injEq]
      constructor <;> ring

theorem renderCartTotalsSums_eq (ut : String) (cart : Cart) :
    renderCartTotalsSums ut cart =
      (((cartLineItems cart).map (itemInternalContrib ut)).sum,
       ((cartLineItems cart).map itemTaxContrib).sum) := by
  unfold renderCartTotalsSums
  rw [foldl_groups_cartTotalsStep]
  norm_num

theorem sum_itemTaxContrib (l : List CartItem) :
    (l.map itemTaxContrib).sum =
      ((l.filter (fun i => !i.muted)).map
        (fun i => i.tax_included_price * (i.quantity : ℚ))).sum := by
  induction l with
  | nil => simp
  | cons i rest ih =>
      by_cases hm : i.muted <;>
        simp [itemTaxContrib, hm, ih]

theorem sum_itemInternalContrib (ut : String) (h1 : ut ≠ "厂家") (h2 : ut ≠ "学生用户")
    (l : List CartItem) :
    (l.map (itemInternalContrib ut)).sum =
      ((l.filter (fun i => !i.muted && i.internal_price.isSome)).map
        (fun i => i.internal_price.getD 0 * (i.quantity : ℚ))).sum := by
  induction l with
  | nil => simp
  | cons i rest ih =>
      by_cases hm : i.muted
      · simp [itemInternalContrib, hm, ih]
      · by_cases hs : i.internal_price.isSome
        · simp [itemInternalContrib, hm, hs, h1, h2, ih]
        · simp [itemInternalContrib, hm, hs, h1, h2, ih]

/-- C1: the cart total computed when rendering the cart sums only
non-muted line items: the tax-included total is the sum over all items
with `muted = false` of tax-included price times quantity, and for a
user that is neither `厂家` nor `学生用户` the internal total is the
sum over all non-muted items with non-null internal price of internal
price times quantity (`renderCartContent`, `part_001` lines 211-234). -/
theorem renderCartContent_totals_correct (ut : String) (cart : Cart) :
    (renderCartTotalsSums ut cart).2 = specTaxIncludedTotal cart ∧
    (ut ≠ "厂家" → ut ≠ "学生用户" →
      (renderCartTotalsSums ut cart).1 = specInternalTotal cart) := by
  refine ⟨?_, fun h1 h2 => ?_⟩
  · rw [renderCartTotalsSums_eq]
    exact sum_itemTaxContrib _
  · rw [renderCartTotalsSums_eq]
    exact sum_itemInternalContrib ut h1 h2 _

/-- Sample line item: internal price 5, tax-included price 7, quantity 2. -/
def sampleItem1 : CartItem :=
  { product_id := 1, name := "商品A", brand := "品牌甲", model := "X1",
    specification := "大号", internal_price := some 5, tax_included_price := 7,
    quantity := 2, muted := false }

/-- Sample line item with null internal price. -/
def sampleItem2 : CartItem :=
  { product_id := 2, name := "商品B", brand := "", model := "",
    specification := "", internal_price := none, tax_included_price := 3,
    quantity := 1, muted := false }

/-- Sample muted line item. -/
def sampleItem3 : CartItem :=
  { product_id := 3, name := "商品C", brand := "", model := "",
    specification := "", internal_price := some 4, tax_included_price := 9,
    quantity := 5, muted := true }

/-- Sample cart with two supplier groups. -/
def sampleCart : Cart :=
  [(1, { supplierName := "厂家甲", items := [sampleItem1, sampleItem2] }),
   (2, { supplierName := "厂家乙", items := [sampleItem3] })]

/-- Witness for C1 at a concrete cart and an admin user. -/
theorem renderCartContent_totals_correct_witness :
    (renderCartTotalsSums "管理员" sampleCart).2 = specTaxIncludedTotal sampleCart ∧
    (renderCartTotalsSums "管理员" sampleCart).1 = specInternalTotal sampleCart :=
  ⟨(renderCartContent_totals_correct "管理员" sampleCart).1,
   (renderCartContent_totals_correct "管理员" sampleCart).2 (by decide) (by decide)⟩

/-- C7 counterexample: for a student user (`学生用户`) with a non-empty
cart, `updateCartTotals` (which only tests `≠ 厂家` when building the
text, `part_001` line 307) writes the combined internal/tax text, while
`renderCartContent` (which also tests `≠ 学生用户`, line 230) embeds the
tax-only text: the two total texts differ at this concrete input. -/
theorem updateCartTotalsText_diverges_for_student :
    updateCartTotalsText (fun _ => "") "学生用户" sampleCart = "总计：内部/含税" ∧
    renderCartTotalText (fun _ => "") "学生用户" sampleCart = "总计：含税" := by
  constructor <;> rfl

/-- C7 amended: for every currency formatter, every cart and every user
type other than `学生用户`, the total text written by `updateCartTotals`
equals the total text embedded by `renderCartContent`, and the two
numeric total computations agree for every user type. -/
theorem updateCartTotalsText_eq_renderCartTotalText (fmt : ℚ → String)
    (ut : String) (cart : Cart) (h : ut ≠ "学生用户") :
    updateCartTotalsText fmt ut cart = renderCartTotalText fmt ut cart ∧
    updateCartTotalsSums ut cart = renderCartTotalsSums ut cart := by
  refine ⟨?_, rfl⟩
  unfold updateCartTotalsText renderCartTotalText
  by_cases hf : ut = "厂家"
  · simp [hf, updateCartTotalsSums, renderCartTotalsSums]
  · simp [hf, h, updateCartTotalsSums, renderCartTotalsSums]

/-- Witness for the amended C7 at a concrete formatter, user and cart. -/
theorem updateCartTotalsText_eq_renderCartTotalText_witness :
    updateCartTotalsText (fun q => toString q.num) "管理员" sampleCart =
      renderCartTotalText (fun q => toString q.num) "管理员" sampleCart ∧
    updateCartTotalsSums "管理员" sampleCart = renderCartTotalsSums "管理员" sampleCart :=
  updateCartTotalsText_eq_renderCartTotalText (fun q => toString q.num) "管理员" sampleCart
    (by decide)

/-! ### Status-to-CSS-class lookups (claim C9) -/

/-- What the JS expression `statusMap[status] || 'default'` can
evaluate to: a string (an own value of the literal, or `'default'`), or
a truthy member inherited from `Object.prototype` — a plain object
literal inherits `constructor`, `toString`, `__proto__`, ... and all of
them are functions or objects, hence truthy, so `|| 'default'` does not
replace them. -/
inductive StatusClassResult where
  | css (s : String)
  | inherited (name : String)
deriving DecidableEq

/-- The property names a plain object literal inherits from
`Object.prototype` in a browser (ECMA-262 including the Annex B
accessors). -/
def objectPrototypeMembers : List String :=
  ["constructor", "hasOwnProperty", "isPrototypeOf", "propertyIsEnumerable",
   "toLocaleString", "toString", "valueOf", "__proto__",
   "__defineGetter__", "__defineSetter__", "__lookupGetter__", "__lookupSetter__"]

namespace Orders

/-- `getStatusClass`, `orders.js` lines 194-202: the lookup
`statusMap[status] || 'default'` on the four-key object literal. An own
key yields its class string; a status naming an inherited
`Object.prototype` member yields that (truthy) member, so `'default'`
is NOT returned for it; only a status missing from both gives
`undefined`, and the `||` falls to `'default'`. -/
def getStatusClass (status : String) : StatusClassResult :=
  if status = "暂存" then StatusClassResult.css "draft"
  else if status = "发起" then StatusClassResult.css "submitted"
  else if status = "确认" then StatusClassResult.css "confirmed"
  else if status = "无效" then StatusClassResult.css "invalid"
  else if status ∈ objectPrototypeMembers then StatusClassResult.inherited status
  else StatusClassResult.css "default"

end Orders

namespace Services

/-- `getStatusClass`, `statistics.js` lines 214-222: the service-record
copy, textually identical to the one in `orders.js`, with the same
`Object.prototype` inheritance in the `statusMap[status]` lookup. -/
def getStatusClass (status : String) : StatusClassResult :=
  if status = "暂存" then StatusClassResult.css "draft"
  else if status = "发起" then StatusClassResult.css "submitted"
  else if status = "确认" then StatusClassResult.css "confirmed"
  else if status = "无效" then StatusClassResult.css "invalid"
  else if status ∈ objectPrototypeMembers then StatusClassResult.inherited status
  else StatusClassResult.css "default"

end Services

/-- C9 counterexample: `statusMap[status] || 'default'` does NOT map
every unknown status to `default`: for the status string `constructor`
(likewise `toString`) the object-literal lookup finds the truthy member
inherited from `Object.prototype` and returns it, so both lookups
produce that member where the claim demands the string `default`. -/
theorem getStatusClass_prototype_leak :
    Orders.getStatusClass "constructor" = StatusClassResult.inherited "constructor" ∧
    Services.getStatusClass "toString" = StatusClassResult.inherited "toString" :=
  ⟨by decide, by decide⟩

/-- C9 amended: the two status-to-CSS-class lookups agree as functions
on every status string; both send `暂存` to `draft`, `发起` to
`submitted`, `确认` to `confirmed`, `无效` to `invalid`; a status
naming an inherited `Object.prototype` member yields that member (not
`default`); every remaining string is sent to `default`. -/
theorem getStatusClass_agree :
    (∀ s, Orders.getStatusClass s = Services.getStatusClass s) ∧
    Orders.getStatusClass "暂存" = StatusClassResult.css "draft" ∧
    Orders.getStatusClass "发起" = StatusClassResult.css "submitted" ∧
    Orders.getStatusClass "确认" = StatusClassResult.css "confirmed" ∧
    Orders.getStatusClass "无效" = StatusClassResult.css "invalid" ∧
    (∀ s ∈ objectPrototypeMembers,
      Orders.getStatusClass s = StatusClassResult.inherited s) ∧
    (∀ s, s ≠ "暂存" → s ≠ "发起" → s ≠ "确认" → s ≠ "无效" →
      s ∉ objectPrototypeMembers →
      Orders.getStatusClass s = StatusClassResult.css "default") := by
  refine ⟨fun s => rfl, by decide, by decide, by decide, by decide, ?_, ?_⟩
  · intro s hs
    simp only [objectPrototypeMembers, List.mem_cons, List.not_mem_nil, or_false] at hs
    rcases hs with rfl | rfl | rfl | rfl | rfl | rfl | rfl | rfl | rfl | rfl | rfl | rfl <;>
      decide
  · intro s h1 h2 h3 h4 h5
    simp [Orders.getStatusClass, h1, h2, h3, h4, h5]

/-- Witness for C9 at a plain unknown status and at a prototype-member
status. -/
theorem getStatusClass_agree_witness :
    Orders.getStatusClass "别的" = StatusClassResult.css "default" ∧
    Orders.getStatusClass "toString" = StatusClassResult.inherited "toString" :=
  ⟨getStatusClass_agree.2.2.2.2.2.2 "别的" (by decide) (by decide) (by decide)
      (by decide) (by decide),
   getStatusClass_agree.2.2.2.2.2.1 "toString" (by decide)⟩

/-! ### Pagination (claim C8) -/

/-- The state of a rendered pagination bar. -/
structure PaginationView where
  totalPages : Int
  prevDisabled : Bool
  nextDisabled : Bool
deriving DecidableEq

/-- `renderOrdersPagination`, `orders.js` lines 99-112:
`totalPages = Math.ceil(total / pageSize)`, the previous button carries
`disabled` when `page <= 1`, the next button when `page >= totalPages`. -/
def renderOrdersPagination (page : Int) (pageSize total : ℕ) : PaginationView :=
  let totalPages : Int := Int.ceil ((total : ℚ) / (pageSize : ℚ))
  { totalPages := totalPages,
    prevDisabled := decide (page ≤ 1),
    nextDisabled := decide (page ≥ totalPages) }

/-- `renderProductsPagination`, `products.js` lines 92-105 (textually
the same computation as `renderOrdersPagination`). -/
def renderProductsPagination (page : Int) (pageSize total : ℕ) : PaginationView :=
  let totalPages : Int := Int.ceil ((total : ℚ) / (pageSize : ℚ))
  { totalPages := totalPages,
    prevDisabled := decide (page ≤ 1),
    nextDisabled := decide (page ≥ totalPages) }

theorem ceil_natCast_div_eq (a b : ℕ) (hb : 0 < b) :
    Int.ceil ((a : ℚ) / (b : ℚ)) = (((a + b - 1) / b : ℕ) : ℤ) := by
  have hb' : (0 : ℚ) < (b : ℚ) := by exact_mod_cast hb
  set n : ℕ := (a + b - 1) / b with hn
  have hub : a + b - 1 < (n + 1) * b := by
    have hlt : (a + b - 1) / b < n + 1 := by omega
    exact (Nat.div_lt_iff_lt_mul hb).1 hlt
  have hlb : n * b ≤ a + b - 1 := Nat.div_mul_le_self (a + b - 1) b
  have hub2 : a + b - 1 < n * b + b := by
    rw [add_mul, one_mul] at hub
    exact hub
  have h1 : a ≤ n * b := by omega
  have hab : 1 ≤ a + b := by omega
  zify [hab] at hlb
  rw [Int.ceil_eq_iff]
  constructor
  · have key : ((n : ℤ) - 1) * b < a := by
      rw [sub_mul, one_mul]
      have hbz : (1 : ℤ) ≤ (b : ℤ) := by exact_mod_cast hb
      omega
    have keyq : (((n : ℚ)) - 1) * b < a := by exact_mod_cast key
    calc ((n : ℤ) : ℚ) - 1 = ((n : ℚ) - 1) := by push_cast; ring
    _ < (a : ℚ) / b := (lt_div_iff₀ hb').2 keyq
  · have h1q : (a : ℚ) ≤ (n : ℚ) * b := by exact_mod_cast h1
    calc (a : ℚ) / b ≤ (n : ℚ) := (div_le_iff₀ hb').2 h1q
    _ = ((n : ℤ) : ℚ) := by push_cast; ring

/-- C8: for every page size greater than zero, every total and every
requested page, the rendered pagination computes the page count as the
ceiling of total over page size (equal to the integer formula
`(total + pageSize - 1) / pageSize`), disables the previous button
exactly when the page is at most 1 and the next button exactly when the
page is at least the page count; the products and orders renderers
agree. -/
theorem renderPagination_correct (page : Int) (pageSize total : ℕ) (h : 0 < pageSize) :
    (renderOrdersPagination page pageSize total).totalPages =
      (((total + pageSize - 1) / pageSize : ℕ) : ℤ) ∧
    ((renderOrdersPagination page pageSize total).prevDisabled = true ↔ page ≤ 1) ∧
    ((renderOrdersPagination page pageSize total).nextDisabled = true ↔
      page ≥ (renderOrdersPagination page pageSize total).totalPages) ∧
    renderProductsPagination page pageSize total = renderOrdersPagination page pageSize total := by
  refine ⟨?_, ?_, ?_, rfl⟩
  · exact ceil_natCast_div_eq total pageSize h
  · simp [renderOrdersPagination]
  · simp [renderOrdersPagination]

/-- Witness for C8: page 2 of 45 records at page size 20 gives 3 pages,
with neither button disabled. -/
theorem renderPagination_correct_witness :
    (renderOrdersPagination 2 20 45).totalPages = ((((45 : ℕ) + 20 - 1) / 20 : ℕ) : ℤ) ∧
    ((renderOrdersPagination 2 20 45).prevDisabled = true ↔ (2 : Int) ≤ 1) ∧
    ((renderOrdersPagination 2 20 45).nextDisabled = true ↔
      (2 : Int) ≥ (renderOrdersPagination 2 20 45).totalPages) ∧
    renderProductsPagination 2 20 45 = renderOrdersPagination 2 20 45 :=
  renderPagination_correct 2 20 45 (by decide)

/-! ### Main-page UI initialization (claim C6) -/

/-- The display state `initUI` leaves in the DOM. -/
structure MainUIState where
  cartDisplay : String
  statisticsDisplay : String
  productsActionsShown : Bool
  servicesActionsShown : Bool
  usersManagementShown : Bool
  internalPriceDisplay : String
deriving DecidableEq

/-- `initUI`, `statistics.js` lines 486-536. The role gate tests the
literal `供应商`: lines 493-502 set both the cart button and the
statistics entry, line 533 re-hides statistics for `普通用户`
(redundantly), lines 510-529 drive the remaining flags. -/
def initUI (userType : String) : MainUIState :=
  let p : String × String :=
    if userType = "供应商" then ("none", "none")
    else if userType = "普通用户" then ("inline-flex", "none")
    else ("inline-flex", "flex")
  { cartDisplay := p.1,
    statisticsDisplay := if userType = "普通用户" then "none" else p.2,
    productsActionsShown := userType == "管理员" || userType == "供应商",
    servicesActionsShown := userType == "供应商",
    usersManagementShown := userType == "管理员",
    internalPriceDisplay :=
      if userType = "供应商" ∨ userType = "普通用户" then "none" else "table-cell" }

/-- C6 counterexample: a logged-in user of type `厂家` — the
supplier/factory user-type string the rest of the client tests for
(`part_001` line 132, `orders.js` line 66, `products.js` line 59,
`statistics.js` line 108) — falls through every branch of `initUI`
(which only tests `供应商`) and gets BOTH the shopping-cart button and
the statistics navigation entry shown, contradicting the claim that
they are hidden for supplier/factory users. -/
theorem initUI_factory_shows_cart_and_statistics :
    (initUI "厂家").cartDisplay = "inline-flex" ∧
    (initUI "厂家").statisticsDisplay = "flex" := by
  constructor <;> rfl

/-- C6 amended: `initUI` hides the cart button exactly for user type
`供应商`, hides the statistics entry exactly for `供应商` and
`普通用户`; in particular both are hidden for `供应商` and both are
shown for admins (`管理员`) — but also for `厂家` users. -/
theorem initUI_display_characterization :
    (initUI "供应商").cartDisplay = "none" ∧
    (initUI "供应商").statisticsDisplay = "none" ∧
    (initUI "管理员").cartDisplay = "inline-flex" ∧
    (initUI "管理员").statisticsDisplay = "flex" ∧
    (∀ ut, (initUI ut).cartDisplay = "none" ↔ ut = "供应商") ∧
    (∀ ut, (initUI ut).statisticsDisplay = "none" ↔ (ut = "供应商" ∨ ut = "普通用户")) := by
  refine ⟨rfl, rfl, rfl, rfl, fun ut => ?_, fun ut => ?_⟩
  · by_cases h1 : ut = "供应商"
    · simp [initUI, h1]
    · by_cases h2 : ut = "普通用户" <;> simp [initUI, h1, h2]
  · by_cases h1 : ut = "供应商"
    · by_cases h2 : ut = "普通用户" <;> simp [initUI, h1, h2]
    · by_cases h2 : ut = "普通用户" <;> simp [initUI, h1, h2]

/-! ### Order / service row actions and status transitions (claim C5) -/

/-- The action buttons a rendered row can offer. -/
inductive RowAction where
  | view
  | submit
  | confirm
  | delete
deriving DecidableEq

/-- The action buttons of an order row, `orders.js` lines 61-83: view
always; for a `厂家` user a confirm button exactly on status `发起`;
for every other user a submit button exactly on status `暂存`, plus a
delete button. -/
def renderOrdersTableActions (userType status : String) : List RowAction :=
  [RowAction.view] ++
    (if userType = "厂家" then
      if status = "发起" then [RowAction.confirm] else []
    else
      (if status = "暂存" then [RowAction.submit] else []) ++ [RowAction.delete])

/-- The action buttons of a service row, `statistics.js` lines 103-122:
view always; submit for a `厂家` user on status `暂存`; confirm for a
`普通用户` or `管理员` on status `发起` when the record's `user_id`
matches the current user; delete always. -/
def renderServicesTableActions (userType : String) (userId : Int)
    (svcStatus : String) (svcUserId : Int) : List RowAction :=
  [RowAction.view] ++
    (if userType = "厂家" ∧ svcStatus = "暂存" then [RowAction.submit] else []) ++
    (if (userType = "普通用户" ∨ userType = "管理员") ∧ svcStatus = "发起" ∧
        svcUserId = userId then [RowAction.confirm] else []) ++
    [RowAction.delete]

/-- The status a submit button requests: `orders.js` line 170 and
`statistics.js` line 190 PUT `new_status=发起`. -/
def submitNewStatus : String := "发起"

/-- The status a confirm button requests: `orders.js` line 185 and
`statistics.js` line 205 PUT `new_status=确认`. -/
def confirmNewStatus : String := "确认"

/-- The status transitions reachable through the buttons of an order
row: each offered submit/confirm button paired with the status change
its handler requests. -/
def orderButtonTransitions (userType status : String) : List (String × String) :=
  (renderOrdersTableActions userType status).filterMap (fun a =>
    match a with
    | RowAction.submit => some (status, submitNewStatus)
    | RowAction.confirm => some (status, confirmNewStatus)
    | _ => none)

/-- The status transitions reachable through the buttons of a service
row. -/
def serviceButtonTransitions (userType : String) (userId : Int)
    (svcStatus : String) (svcUserId : Int) : List (String × String) :=
  (renderServicesTableActions userType userId svcStatus svcUserId).filterMap (fun a =>
    match a with
    | RowAction.submit => some (svcStatus, submitNewStatus)
    | RowAction.confirm => some (svcStatus, confirmNewStatus)
    | _ => none)

/-- C5: on every rendered order row and service row the submit button
is offered only on status `暂存` and the confirm button only on status
`发起`; consequently every status transition reachable through the
rendered buttons is `暂存 → 发起` or `发起 → 确认` — in particular
`(暂存, 确认)` is neither, so a draft can never move directly to
confirmed. -/
theorem rowActions_status_transitions :
    (∀ ut st, RowAction.submit ∈ renderOrdersTableActions ut st → st = "暂存") ∧
    (∀ ut st, RowAction.confirm ∈ renderOrdersTableActions ut st → st = "发起") ∧
    (∀ ut uid st suid,
      RowAction.submit ∈ renderServicesTableActions ut uid st suid → st = "暂存") ∧
    (∀ ut uid st suid,
      RowAction.confirm ∈ renderServicesTableActions ut uid st suid → st = "发起") ∧
    (∀ ut st t, t ∈ orderButtonTransitions ut st →
      t = ("暂存", "发起") ∨ t = ("发起", "确认")) ∧
    (∀ ut uid st suid t, t ∈ serviceButtonTransitions ut uid st suid →
      t = ("暂存", "发起") ∨ t = ("发起", "确认")) := by
  have ho1 : ∀ ut st, RowAction.submit ∈ renderOrdersTableActions ut st → st = "暂存" := by
    intro ut st h
    unfold renderOrdersTableActions at h
    split_ifs at h <;> simp_all
  have ho2 : ∀ ut st, RowAction.confirm ∈ renderOrdersTableActions ut st → st = "发起" := by
    intro ut st h
    unfold renderOrdersTableActions at h
    split_ifs at h <;> simp_all
  have hs1 : ∀ ut uid st suid,
      RowAction.submit ∈ renderServicesTableActions ut uid st suid → st = "暂存" := by
    intro ut uid st suid h
    unfold renderServicesTableActions at h
    split_ifs at h <;> simp_all
  have hs2 : ∀ ut uid st suid,
      RowAction.confirm ∈ renderServicesTableActions ut uid st suid → st = "发起" := by
    intro ut uid st suid h
    unfold renderServicesTableActions at h
    split_ifs at h <;> simp_all
  refine ⟨ho1, ho2, hs1, hs2, ?_, ?_⟩
  · intro ut st t ht
    unfold orderButtonTransitions at ht
    rw [List.mem_filterMap] at ht
    obtain ⟨a, ha, hta⟩ := ht
    cases a with
    | view => simp at hta
    | delete => simp at hta
    | submit =>
        simp only [Option.some.injEq] at hta
        left
        rw [← hta, ho1 ut st ha]
        rfl
    | confirm =>
        simp only [Option.some.injEq] at hta
        right
        rw [← hta, ho2 ut st ha]
        rfl
  · intro ut uid st suid t ht
    unfold serviceButtonTransitions at ht
    rw [List.mem_filterMap] at ht
    obtain ⟨a, ha, hta⟩ := ht
    cases a with
    | view => simp at hta
    | delete => simp at hta
    | submit =>
        simp only [Option.some.injEq] at hta
        left
        rw [← hta, hs1 ut uid st suid ha]
        rfl
    | confirm =>
        simp only [Option.some.injEq] at hta
        right
        rw [← hta, hs2 ut uid st suid ha]
        rfl

/-- Witness for C5: a normal user on a draft order row reaches exactly
the transition `暂存 → 发起`. -/
theorem rowActions_status_transitions_witness :
    ("暂存", "发起") = (("暂存", "发起") : String × String) ∨
    ("暂存", "发起") = (("发起", "确认") : String × String) :=
  rowActions_status_transitions.2.2.2.2.1 "普通用户" "暂存" ("暂存", "发起") (by decide)

/-! ### Cart operations (`part_001`) -/

/-- In-place update of the element at an index (the JS mutation
`list[index].field = v`); out of range leaves the list unchanged. -/
def listModify {α : Type} (l : List α) (n : Nat) (f : α → α) : List α :=
  match l, n with
  | [], _ => []
  | a :: as, 0 => f a :: as
  | a :: as, Nat.succ m => a :: listModify as m f

/-- In-place update of the group stored under a supplier key (the JS
mutation `cart[supplierId] ...`); keys are unique, so at most one entry
is touched. -/
def cartModify (cart : Cart) (sid : Int) (f : CartGroup → CartGroup) : Cart :=
  cart.map (fun p => if p.1 = sid then (p.1, f p.2) else p)

/-- `supplierId in cart` / truthiness of `cart[supplierId]`. -/
def cartHasKey (cart : Cart) (sid : Int) : Bool :=
  cart.any (fun p => p.1 == sid)

/-- `cart[supplierId]` as a lookup (first entry with the key; keys are
unique). -/
def cartLookup (cart : Cart) (sid : Int) : Option CartGroup :=
  match cart with
  | [] => none
  | p :: rest => if p.1 = sid then some p.2 else cartLookup rest sid

/-- `cart[supplierId].items[index]` as a lookup. -/
def getCartItem (cart : Cart) (sid : Int) (idx : Nat) : Option CartItem :=
  (cartLookup cart sid).bind (fun g => g.items[idx]?)

/-- The line item pushed by `addProductToCart`, `part_001` lines 25-35. -/
def newCartItem (p : Product) : CartItem :=
  { product_id := p.id, name := p.name, brand := jsOrStr p.brand "",
    model := jsOrStr p.model "", specification := jsOrStr p.specification "",
    internal_price := p.internal_price, tax_included_price := p.tax_included_price,
    quantity := 1, muted := false }

/-- `existingItem.quantity += 1` on the first item with the given
product id (`part_001` lines 21-23, `items.find(...)` returns the first
match). -/
def bumpFirstQuantity (pid : Int) : List CartItem → List CartItem
  | [] => []
  | i :: rest =>
      if i.product_id = pid then { i with quantity := i.quantity + 1 } :: rest
      else i :: bumpFirstQuantity pid rest

/-- `addProductToCart`, `part_001` lines 8-43, success path of the
`GET /products/{productId}` fetch (`product` is the response): create
the supplier group when absent (lines 13-18), then either increment the
first existing item with `product_id === productId` (lines 21-23) or
push a fresh item (lines 24-36). The duplicate check uses the argument
`productId` while the pushed item stores `product.id`. -/
def addProductToCartStep (productId : Int) (product : Product) (g : CartGroup) : CartGroup :=
  if g.items.any (fun i => i.product_id == productId) then
    { g with items := bumpFirstQuantity productId g.items }
  else
    { g with items := g.items ++ [newCartItem product] }

/-- `addProductToCart` composed: ensure the supplier group exists, then
apply the per-group step (`part_001` lines 12-36). -/
def addProductToCart (productId : Int) (product : Product) (cart : Cart) : Cart :=
  let sid := product.supplier_id
  let cart1 :=
    if cartHasKey cart sid then cart
    else cart ++ [(sid, { supplierName := jsOrStr product.supplier_name "未知厂家",
                          items := [] })]
  cartModify cart1 sid (addProductToCartStep productId product)

/-- `removeFromCart`, `part_001` lines 251-258: splice the item out,
delete the supplier key when its item list became empty. -/
def removeFromCart (cart : Cart) (sid : Int) (idx : Nat) : Cart :=
  let c := cartModify cart sid (fun g => { g with items := g.items.eraseIdx idx })
  c.filter (fun p => !(p.1 == sid && p.2.items.isEmpty))

/-- `toggleMute`, `part_001` lines 261-264. -/
def toggleMute (cart : Cart) (sid : Int) (idx : Nat) : Cart :=
  cartModify cart sid (fun g =>
    { g with items := listModify g.items idx (fun i => { i with muted := !i.muted }) })

/-! ### JS `parseInt` (radix unspecified) -/

/-- JS whitespace stripped by `parseInt`. -/
def isJsWhitespace (c : Char) : Bool :=
  c == ' ' || c == '\t' || c == '\n' || c == '\r'

/-- Value of a decimal digit. -/
def decDigitVal (c : Char) : Option Nat :=
  if c.isDigit then some (c.toNat - 48) else none

/-- Value of a hexadecimal digit. -/
def hexDigitVal (c : Char) : Option Nat :=
  if c.isDigit then some (c.toNat - 48)
  else if 'a' ≤ c ∧ c ≤ 'f' then some (c.toNat - 87)
  else if 'A' ≤ c ∧ c ≤ 'F' then some (c.toNat - 55)
  else none

/-- Accumulate the leading digits of the list. -/
def digitsValAux (base : Nat) (valOf : Char → Option Nat) : List Char → Nat → Nat
  | [], acc => acc
  | c :: cs, acc =>
      match valOf c with
      | some d => digitsValAux base valOf cs (acc * base + d)
      | none => acc

/-- Value of the longest digit prefix; `none` when there is no leading
digit (JS `NaN`). -/
def digitsVal (base : Nat) (valOf : Char → Option Nat) (cs : List Char) : Option Nat :=
  match cs with
  | [] => none
  | c :: _ =>
      match valOf c with
      | none => none
      | some _ => some (digitsValAux base valOf cs 0)

/-- JS `parseInt(s)` with the radix unspecified: strip leading
whitespace, read an optional sign, detect a `0x`/`0X` prefix (radix
16), otherwise parse the longest leading run of decimal digits;
`none` models `NaN`. -/
def jsParseInt (s : String) : Option Int :=
  let cs := s.toList.dropWhile isJsWhitespace
  let signed : Int × List Char :=
    match cs with
    | '-' :: rest => (-1, rest)
    | '+' :: rest => (1, rest)
    | _ => (1, cs)
  match signed.2 with
  | '0' :: x :: rest =>
      if x = 'x' ∨ x = 'X' then
        (digitsVal 16 hexDigitVal rest).map (fun n => signed.1 * (n : Int))
      else
        (digitsVal 10 decDigitVal signed.2).map (fun n => signed.1 * (n : Int))
  | _ => (digitsVal 10 decDigitVal signed.2).map (fun n => signed.1 * (n : Int))

/-! ### Quantity updates (`part_001` lines 267-283, 407-425, 428-441) -/

/-- What a quantity handler leaves behind: the new cart, the value (if
any) written back into the quantity input field, and the toasts. -/
structure QuantityUpdateResult where
  cart : Cart
  inputWrite : Option String
  messages : List (String × String)
deriving DecidableEq

/-- The stored quantity of the addressed item
(`cart[supplierId].items[index].quantity`); the `getD 0` branch is
unreachable for the indices the rendered rows pass in (JS would throw
on an invalid index). -/
def storedQuantity (cart : Cart) (sid : Int) (idx : Nat) : Int :=
  ((getCartItem cart sid idx).map (fun i => i.quantity)).getD 0

/-- `updateCartQuantity`, `part_001` lines 267-283: parse the input
value; on `NaN` or a value below 1 show an error and write the stored
quantity back into the field; otherwise store the parsed quantity. -/
def updateCartQuantity (cart : Cart) (sid : Int) (idx : Nat) (value : String) :
    QuantityUpdateResult :=
  match jsParseInt value with
  | none =>
      { cart := cart,
        inputWrite := some (toString (storedQuantity cart sid idx)),
        messages := [("数量必须是大于0的整数", "error")] }
  | some q =>
      if q < 1 then
        { cart := cart,
          inputWrite := some (toString (storedQuantity cart sid idx)),
          messages := [("数量必须是大于0的整数", "error")] }
      else
        { cart := cartModify cart sid (fun g =>
            { g with items := listModify g.items idx (fun i => { i with quantity := q }) }),
          inputWrite := none,
          messages := [] }

/-- `updateCartQuantityFromInput`, `part_001` lines 428-441 (the mobile
variant; same logic as `updateCartQuantity`). -/
def updateCartQuantityFromInput (cart : Cart) (sid : Int) (idx : Nat) (value : String) :
    QuantityUpdateResult :=
  match jsParseInt value with
  | none =>
      { cart := cart,
        inputWrite := some (toString (storedQuantity cart sid idx)),
        messages := [("数量必须是大于0的整数", "error")] }
  | some q =>
      if q < 1 then
        { cart := cart,
          inputWrite := some (toString (storedQuantity cart sid idx)),
          messages := [("数量必须是大于0的整数", "error")] }
      else
        { cart := cartModify cart sid (fun g =>
            { g with items := listModify g.items idx (fun i => { i with quantity := q }) }),
          inputWrite := none,
          messages := [] }

/-- `adjustQuantity`, `part_001` lines 407-425 (the mobile `+`/`-`
buttons): reject a new quantity below 1 (leaving the field untouched),
otherwise store it and write it into the field. -/
def adjustQuantity (cart : Cart) (sid : Int) (idx : Nat) (delta : Int) :
    QuantityUpdateResult :=
  let newQuantity := storedQuantity cart sid idx + delta
  if newQuantity < 1 then
    { cart := cart, inputWrite := none, messages := [("数量不能小于1", "error")] }
  else
    { cart := cartModify cart sid (fun g =>
        { g with items := listModify g.items idx (fun i => { i with quantity := newQuantity }) }),
      inputWrite := some (toString newQuantity),
      messages := [] }

/-! ### Order submission (`part_001` lines 329-373) -/

/-- One item of an order-creation request body, `part_001` lines
339-349. -/
structure OrderItemPayload where
  product_id : Int
  name : String
  brand : String
  model : String
  specification : String
  internal_price : Option ℚ
  tax_included_price : ℚ
  quantity : Int
  muted : Bool
deriving DecidableEq

/-- The field-by-field copy `group.items.map(item => ({...}))`. -/
def toOrderItemPayload (i : CartItem) : OrderItemPayload :=
  { product_id := i.product_id, name := i.name, brand := i.brand, model := i.model,
    specification := i.specification, internal_price := i.internal_price,
    tax_included_price := i.tax_included_price, quantity := i.quantity, muted := i.muted }

/-- The body of one `POST /orders/` request, `part_001` lines 351-357. -/
structure OrderRequest where
  supplier_id : Int
  items : List OrderItemPayload
deriving DecidableEq

/-- What `saveOrder` leaves behind. -/
structure SaveOrderResult where
  requests : List OrderRequest
  cart : Cart
  messages : List (String × String)
deriving DecidableEq

/-- The payload of one supplier group. -/
def groupRequest (p : Int × CartGroup) : OrderRequest :=
  { supplier_id := p.1, items := p.2.items.map toOrderItemPayload }

/-- The `for (const supplierId in cart)` loop of `saveOrder`,
`part_001` lines 337-358: one request per group, in order, stopping at
the first failed await; returns the issued requests and the first
error, if any. `outcome` is the backend's answer per supplier id. -/
def saveOrderLoop (outcome : Int → Except String Unit) : Cart → List OrderRequest × Option String
  | [] => ([], none)
  | p :: rest =>
      match outcome p.1 with
      | Except.ok _ =>
          let r := saveOrderLoop outcome rest
          (groupRequest p :: r.1, r.2)
      | Except.error e => ([groupRequest p], some e)

/-- `saveOrder`, `part_001` lines 329-373: warn on an empty cart;
otherwise issue the per-group requests; on success clear the cart
(line 361) and toast success, on the first failure toast a single
error and leave the cart as it was. -/
def saveOrder (cart : Cart) (outcome : Int → Except String Unit) : SaveOrderResult :=
  if cart.isEmpty then
    { requests := [], cart := cart, messages := [("购物车为空", "warning")] }
  else
    let r := saveOrderLoop outcome cart
    match r.2 with
    | none => { requests := r.1, cart := [], messages := [("订单保存成功", "success")] }
    | some e => { requests := r.1, cart := cart,
                  messages := [("保存订单失败: " ++ e, "error")] }

/-! ### Structural lemmas about the cart helpers -/

theorem listModify_getElem {α : Type} (l : List α) (n : Nat) (f : α → α) (m : Nat) :
    (listModify l n f)[m]? = if m = n then (l[n]?).map f else l[m]? := by
  induction l generalizing n m with
  | nil => simp [listModify]
  | cons a as ih =>
      cases n with
      | zero =>
          cases m with
          | zero => simp [listModify]
          | succ m1 => simp [listModify]
      | succ n1 =>
          cases m with
          | zero => simp [listModify]
          | succ m1 => simp [listModify, ih]

theorem listModify_length {α : Type} (l : List α) (n : Nat) (f : α → α) :
    (listModify l n f).length = l.length := by
  induction l generalizing n with
  | nil => rfl
  | cons a as ih =>
      cases n with
      | zero => rfl
      | succ n1 => simp [listModify, ih]

theorem listModify_map {α β : Type} (l : List α) (n : Nat) (f : α → α) (g : α → β)
    (hf : ∀ a, g (f a) = g a) : (listModify l n f).map g = l.map g := by
  induction l generalizing n with
  | nil => rfl
  | cons a as ih =>
      cases n with
      | zero => simp [listModify, hf]
      | succ n1 => simp [listModify, ih]

theorem mem_listModify {α : Type} (l : List α) (n : Nat) (f : α → α) (x : α)
    (hx : x ∈ listModify l n f) : x ∈ l ∨ ∃ a, a ∈ l ∧ x = f a := by
  induction l generalizing n with
  | nil => simp [listModify] at hx
  | cons a as ih =>
      cases n with
      | zero =>
          rcases List.mem_cons.1 hx with h | h
          · exact Or.inr ⟨a, List.mem_cons_self a as, h⟩
          · exact Or.inl (List.mem_cons_of_mem a h)
      | succ n1 =>
          rcases List.mem_cons.1 hx with h | h
          · exact Or.inl (h ▸ List.mem_cons_self a as)
          · rcases ih n1 h with h2 | ⟨b, hb, hxb⟩
            · exact Or.inl (List.mem_cons_of_mem a h2)
            · exact Or.inr ⟨b, List.mem_cons_of_mem a hb, hxb⟩

theorem mem_bumpFirstQuantity (pid : Int) (l : List CartItem) (x : CartItem)
    (hx : x ∈ bumpFirstQuantity pid l) :
    x ∈ l ∨ ∃ a, a ∈ l ∧ x = { a with quantity := a.quantity + 1 } := by
  induction l with
  | nil => simp [bumpFirstQuantity] at hx
  | cons a as ih =>
      by_cases h : a.product_id = pid
      · simp only [bumpFirstQuantity, if_pos h] at hx
        rcases List.mem_cons.1 hx with h2 | h2
        · exact Or.inr ⟨a, List.mem_cons_self a as, h2⟩
        · exact Or.inl (List.mem_cons_of_mem a h2)
      · simp only [bumpFirstQuantity, if_neg h] at hx
        rcases List.mem_cons.1 hx with h2 | h2
        · exact Or.inl (h2 ▸ List.mem_cons_self a as)
        · rcases ih h2 with h3 | ⟨b, hb, hxb⟩
          · exact Or.inl (List.mem_cons_of_mem a h3)
          · exact Or.inr ⟨b, List.mem_cons_of_mem a hb, hxb⟩

theorem bumpFirstQuantity_map_product_id (pid : Int) (l : List CartItem) :
    (bumpFirstQuantity pid l).map (fun i => i.product_id) =
      l.map (fun i => i.product_id) := by
  induction l with
  | nil => rfl
  | cons a as ih =>
      by_cases h : a.product_id = pid
      · simp [bumpFirstQuantity, h]
      · simp [bumpFirstQuantity, h, ih]

theorem bumpFirstQuantity_ne_nil (pid : Int) (l : List CartItem) (h : l ≠ []) :
    bumpFirstQuantity pid l ≠ [] := by
  cases l with
  | nil => exact absurd rfl h
  | cons a as =>
      by_cases hp : a.product_id = pid <;> simp [bumpFirstQuantity, hp]

theorem cartModify_map_fst (c : Cart) (sid : Int) (f : CartGroup → CartGroup) :
    (cartModify c sid f).map Prod.fst = c.map Prod.fst := by
  unfold cartModify
  rw [List.map_map]
  apply List.map_congr_left
  intro p _
  by_cases h : p.1 = sid <;> simp [h]

theorem mem_cartModify (c : Cart) (sid : Int) (f : CartGroup → CartGroup)
    (p : Int × CartGroup) (hp : p ∈ cartModify c sid f) :
    ∃ q, q ∈ c ∧ p.1 = q.1 ∧ (p.2 = q.2 ∨ (q.1 = sid ∧ p.2 = f q.2)) := by
  unfold cartModify at hp
  rcases List.mem_map.1 hp with ⟨q, hq, hpq⟩
  by_cases h : q.1 = sid
  · rw [if_pos h] at hpq
    exact ⟨q, hq, by rw [← hpq], Or.inr ⟨h, by rw [← hpq]⟩⟩
  · rw [if_neg h] at hpq
    exact ⟨q, hq, by rw [← hpq], Or.inl (by rw [← hpq])⟩

theorem cartLookup_cartModify (c : Cart) (sid : Int) (f : CartGroup → CartGroup) (k : Int) :
    cartLookup (cartModify c sid f) k =
      (cartLookup c k).map (fun g => if k = sid then f g else g) := by
  induction c with
  | nil => rfl
  | cons p ps ih =>
      have hstep : cartModify (p :: ps) sid f =
          (if p.1 = sid then (p.1, f p.2) else p) :: cartModify ps sid f := rfl
      rw [hstep]
      by_cases hs : p.1 = sid
      · rw [if_pos hs]
        by_cases hk : p.1 = k
        · simp only [cartLookup, if_pos hk]
          simp [← hk, hs]
        · simp only [cartLookup, if_neg hk]
          exact ih
      · rw [if_neg hs]
        by_cases hk : p.1 = k
        · simp only [cartLookup, if_pos hk]
          simp [← hk, hs]
        · simp only [cartLookup, if_neg hk]
          exact ih

theorem getCartItem_modifyItem (c : Cart) (sid : Int) (idx : Nat) (f : CartItem → CartItem)
    (k : Int) (j : Nat) :
    getCartItem (cartModify c sid (fun g =>
        { g with items := listModify g.items idx f })) k j =
      (if k = sid ∧ j = idx then (getCartItem c k j).map f else getCartItem c k j) := by
  unfold getCartItem
  rw [cartLookup_cartModify]
  cases h : cartLookup c k with
  | none => simp
  | some g =>
      by_cases hk : k = sid
      · subst hk
        by_cases hj : j = idx
        · subst hj
          simp [listModify_getElem]
        · simp [listModify_getElem, hj]
      · simp [hk]

theorem mem_cartLineItems (c : Cart) (i : CartItem) :
    i ∈ cartLineItems c ↔ ∃ p, p ∈ c ∧ i ∈ p.2.items := by
  unfold cartLineItems
  rw [List.mem_flatten]
  constructor
  · rintro ⟨l, hl, hil⟩
    rcases List.mem_map.1 hl with ⟨p, hp, hlp⟩
    exact ⟨p, hp, by rw [hlp]; exact hil⟩
  · rintro ⟨p, hp, hip⟩
    exact ⟨p.2.items, List.mem_map.2 ⟨p, hp, rfl⟩, hip⟩

theorem storedQuantity_eq (cart : Cart) (sid : Int) (idx : Nat) (item : CartItem)
    (hit : getCartItem cart sid idx = some item) :
    storedQuantity cart sid idx = item.quantity := by
  simp [storedQuantity, hit]

theorem quantities_ge_one_modifyItem (c : Cart) (sid : Int) (idx : Nat) (q : Int)
    (hq : 1 ≤ q) (h : ∀ i ∈ cartLineItems c, 1 ≤ i.quantity) :
    ∀ i ∈ cartLineItems (cartModify c sid (fun g =>
      { g with items := listModify g.items idx (fun i => { i with quantity := q }) })),
      1 ≤ i.quantity := by
  intro i hi
  rcases (mem_cartLineItems _ _).1 hi with ⟨p, hp, hip⟩
  rcases mem_cartModify _ _ _ _ hp with ⟨r, hr, _, hsnd⟩
  rcases hsnd with h2 | ⟨_, h2⟩
  · exact h i ((mem_cartLineItems _ _).2 ⟨r, hr, h2 ▸ hip⟩)
  · rw [h2] at hip
    rcases mem_listModify _ _ _ _ hip with h3 | ⟨a, ha, hia⟩
    · exact h i ((mem_cartLineItems _ _).2 ⟨r, hr, h3⟩)
    · rw [hia]
      exact hq

/-- C10: a quantity update (`updateCartQuantity`,
`updateCartQuantityFromInput`, `adjustQuantity`) addressed at an
existing line item leaves the cart unchanged and puts the stored
quantity back into the input field when the requested quantity does not
parse (`NaN`) or is below 1 (`adjustQuantity` leaves the field, still
showing the stored quantity, untouched); otherwise it sets exactly the
addressed item's quantity to the requested value; consequently every
quantity in the cart stays an integer of at least 1. -/
theorem quantity_update_operations_correct (cart : Cart) (sid : Int) (idx : Nat)
    (item : CartItem) (hit : getCartItem cart sid idx = some item) :
    (∀ value, jsParseInt value = none →
      updateCartQuantity cart sid idx value =
        { cart := cart, inputWrite := some (toString item.quantity),
          messages := [("数量必须是大于0的整数", "error")] }) ∧
    (∀ value q, jsParseInt value = some q → q < 1 →
      updateCartQuantity cart sid idx value =
        { cart := cart, inputWrite := some (toString item.quantity),
          messages := [("数量必须是大于0的整数", "error")] }) ∧
    (∀ value q, jsParseInt value = some q → 1 ≤ q →
      getCartItem (updateCartQuantity cart sid idx value).cart sid idx =
        some { item with quantity := q } ∧
      (∀ k j, ¬(k = sid ∧ j = idx) →
        getCartItem (updateCartQuantity cart sid idx value).cart k j =
          getCartItem cart k j) ∧
      (updateCartQuantity cart sid idx value).inputWrite = none) ∧
    (∀ value, updateCartQuantityFromInput cart sid idx value =
      updateCartQuantity cart sid idx value) ∧
    (∀ delta, item.quantity + delta < 1 →
      adjustQuantity cart sid idx delta =
        { cart := cart, inputWrite := none,
          messages := [("数量不能小于1", "error")] }) ∧
    (∀ delta, 1 ≤ item.quantity + delta →
      getCartItem (adjustQuantity cart sid idx delta).cart sid idx =
        some { item with quantity := item.quantity + delta } ∧
      (∀ k j, ¬(k = sid ∧ j = idx) →
        getCartItem (adjustQuantity cart sid idx delta).cart k j =
          getCartItem cart k j) ∧
      (adjustQuantity cart sid idx delta).inputWrite =
        some (toString (item.quantity + delta))) ∧
    ((∀ i ∈ cartLineItems cart, 1 ≤ i.quantity) →
      (∀ value, ∀ i ∈ cartLineItems (updateCartQuantity cart sid idx value).cart,
        1 ≤ i.quantity) ∧
      (∀ delta, ∀ i ∈ cartLineItems (adjustQuantity cart sid idx delta).cart,
        1 ≤ i.quantity)) := by
  have hsq : storedQuantity cart sid idx = item.quantity := storedQuantity_eq _ _ _ _ hit
  refine ⟨?_, ?_, ?_, ?_, ?_, ?_, ?_⟩
  · intro value hv
    simp [updateCartQuantity, hv, hsq]
  · intro value q hv hq
    simp [updateCartQuantity, hv, if_pos hq, hsq]
  · intro value q hv hq
    have hnl : ¬q < 1 := not_lt.2 hq
    refine ⟨?_, ?_, ?_⟩
    · simp only [updateCartQuantity, hv, if_neg hnl]
      rw [getCartItem_modifyItem]
      simp [hit]
    · intro k j hkj
      simp only [updateCartQuantity, hv, if_neg hnl]
      rw [getCartItem_modifyItem, if_neg hkj]
    · simp [updateCartQuantity, hv, if_neg hnl]
  · intro value
    rfl
  · intro delta hd
    simp [adjustQuantity, hsq, hd]
  · intro delta hd
    have hnl : ¬(storedQuantity cart sid idx + delta < 1) := by
      rw [hsq]
      exact not_lt.2 hd
    refine ⟨?_, ?_, ?_⟩
    · simp only [adjustQuantity, if_neg hnl]
      rw [getCartItem_modifyItem]
      simp [hit, hsq]
    · intro k j hkj
      simp only [adjustQuantity, if_neg hnl]
      rw [getCartItem_modifyItem, if_neg hkj]
    · have hnl2 : ¬(item.quantity + delta < 1) := not_lt.2 hd
      simp [adjustQuantity, hsq, hnl2]
  · intro hinv
    constructor
    · intro value i hi
      cases hv : jsParseInt value with
      | none =>
          simp only [updateCartQuantity, hv] at hi
          exact hinv i hi
      | some q =>
          by_cases hq : q < 1
          · simp only [updateCartQuantity, hv, if_pos hq] at hi
            exact hinv i hi
          · simp only [updateCartQuantity, hv, if_neg hq] at hi
            exact quantities_ge_one_modifyItem cart sid idx q (not_lt.1 hq) hinv i hi
    · intro delta i hi
      by_cases hd : storedQuantity cart sid idx + delta < 1
      · simp only [adjustQuantity, if_pos hd] at hi
        exact hinv i hi
      · simp only [adjustQuantity, if_neg hd] at hi
        exact quantities_ge_one_modifyItem cart sid idx _ (not_lt.1 hd) hinv i hi

/-! ### The cart shape invariant (claim C2) -/

/-- The supplier keys of the cart are pairwise distinct (a JS object
cannot hold a key twice). -/
def cartKeysNodup (cart : Cart) : Prop :=
  (cart.map Prod.fst).Nodup

/-- A supplier group is well formed under the catalog map `sup`
(product id to supplier id): it is non-empty, holds each product id at
most once, and every item's product belongs to the group's supplier. -/
def groupWf (sup : Int → Int) (sid : Int) (g : CartGroup) : Prop :=
  g.items ≠ [] ∧ (g.items.map (fun i => i.product_id)).Nodup ∧
    ∀ i ∈ g.items, sup i.product_id = sid

/-- The cart invariant of claim C2. -/
def cartWf (sup : Int → Int) (cart : Cart) : Prop :=
  cartKeysNodup cart ∧ ∀ p ∈ cart, groupWf sup p.1 p.2

instance (sup : Int → Int) (sid : Int) (g : CartGroup) : Decidable (groupWf sup sid g) := by
  unfold groupWf
  infer_instance

instance (sup : Int → Int) (cart : Cart) : Decidable (cartWf sup cart) := by
  unfold cartWf cartKeysNodup
  infer_instance

theorem mem_cartModify_eq (c : Cart) (sid : Int) (f : CartGroup → CartGroup)
    (p : Int × CartGroup) (hp : p ∈ cartModify c sid f) :
    ∃ q, q ∈ c ∧ p.1 = q.1 ∧ p.2 = (if q.1 = sid then f q.2 else q.2) := by
  unfold cartModify at hp
  rcases List.mem_map.1 hp with ⟨q, hq, hpq⟩
  by_cases h : q.1 = sid
  · rw [if_pos h] at hpq
    exact ⟨q, hq, by rw [← hpq], by rw [← hpq]; simp [h]⟩
  · rw [if_neg h] at hpq
    exact ⟨q, hq, by rw [← hpq], by rw [← hpq]; simp [h]⟩

theorem cartWf_cartModify_of (sup : Int → Int) (cart : Cart) (sid : Int)
    (F : CartGroup → CartGroup) (hkeys : cartKeysNodup cart)
    (hgroups : ∀ q ∈ cart, groupWf sup q.1 (if q.1 = sid then F q.2 else q.2)) :
    cartWf sup (cartModify cart sid F) := by
  constructor
  · unfold cartKeysNodup
    rw [cartModify_map_fst]
    exact hkeys
  · intro p hp
    rcases mem_cartModify_eq _ _ _ _ hp with ⟨q, hq, h1, h2⟩
    rw [h1, h2]
    exact hgroups q hq

theorem groupWf_listModify (sup : Int → Int) (sid : Int) (g : CartGroup) (idx : Nat)
    (f : CartItem → CartItem) (hpid : ∀ i, (f i).product_id = i.product_id)
    (h : groupWf sup sid g) :
    groupWf sup sid { g with items := listModify g.items idx f } := by
  refine ⟨?_, ?_, ?_⟩
  · intro hnil
    apply h.1
    have hl := listModify_length g.items idx f
    have hnil2 : listModify g.items idx f = [] := hnil
    rw [hnil2] at hl
    exact List.eq_nil_of_length_eq_zero hl.symm
  · rw [listModify_map _ _ _ _ hpid]
    exact h.2.1
  · intro i hi
    rcases mem_listModify _ _ _ _ hi with h3 | ⟨a, ha, hia⟩
    · exact h.2.2 i h3
    · rw [hia, hpid a]
      exact h.2.2 a ha

theorem cartHasKey_eq_false (cart : Cart) (sid : Int) (h : cartHasKey cart sid = false) :
    sid ∉ cart.map Prod.fst := by
  intro hmem
  rcases List.mem_map.1 hmem with ⟨p, hp, hps⟩
  simp only [cartHasKey, List.any_eq_false, beq_iff_eq] at h
  exact h p hp hps

theorem groupWf_addProductToCartStep (sup : Int → Int) (pid : Int) (product : Product)
    (hid : product.id = pid) (hsup : sup product.id = product.supplier_id)
    (g : CartGroup) (hids : (g.items.map (fun i => i.product_id)).Nodup)
    (hmem : ∀ i ∈ g.items, sup i.product_id = product.supplier_id) :
    groupWf sup product.supplier_id (addProductToCartStep pid product g) := by
  unfold addProductToCartStep
  by_cases hany : g.items.any (fun i => i.product_id == pid) = true
  · rw [if_pos hany]
    rcases List.any_eq_true.1 hany with ⟨w, hw, _⟩
    refine ⟨?_, ?_, ?_⟩
    · exact bumpFirstQuantity_ne_nil pid g.items (List.ne_nil_of_mem hw)
    · rw [bumpFirstQuantity_map_product_id]
      exact hids
    · intro i hi
      rcases mem_bumpFirstQuantity _ _ _ hi with h3 | ⟨a, ha, hia⟩
      · exact hmem i h3
      · rw [hia]
        exact hmem a ha
  · rw [if_neg hany]
    have hany2 : g.items.any (fun i => i.product_id == pid) = false := by
      cases hA : g.items.any (fun i => i.product_id == pid)
      · rfl
      · exact absurd hA hany
    have hnotin : product.id ∉ g.items.map (fun i => i.product_id) := by
      intro hmemid
      rcases List.mem_map.1 hmemid with ⟨i, hi, hip⟩
      simp only [List.any_eq_false, beq_iff_eq] at hany2
      exact hany2 i hi (by rw [hip, hid])
    refine ⟨by simp, ?_, ?_⟩
    · rw [List.map_append]
      rw [List.nodup_append]
      refine ⟨hids, List.nodup_singleton _, ?_⟩
      intro a ha hb
      simp only [List.map_cons, List.map_nil, List.mem_singleton, newCartItem] at hb
      rw [hb] at ha
      exact hnotin ha
    · intro i hi
      rcases List.mem_append.1 hi with h3 | h3
      · exact hmem i h3
      · rw [List.mem_singleton.1 h3]
        exact hsup

/-- C2: every cart operation preserves the cart invariant — items live
under their product's supplier key (relative to the catalog map `sup`),
every present supplier group is non-empty, and a product id occurs at
most once per group — and a fully successful `saveOrder` leaves the
cart mapping empty. The consistency hypotheses on `addProductToCart`
state what `GET /products/{productId}` returns: the product with that
id, belonging to its catalog supplier. -/
theorem cart_operations_preserve_invariant (sup : Int → Int) (cart : Cart)
    (hwf : cartWf sup cart) :
    (∀ pid product, product.id = pid → sup product.id = product.supplier_id →
      cartWf sup (addProductToCart pid product cart)) ∧
    (∀ sid idx, cartWf sup (removeFromCart cart sid idx)) ∧
    (∀ sid idx, cartWf sup (toggleMute cart sid idx)) ∧
    (∀ sid idx value, cartWf sup (updateCartQuantity cart sid idx value).cart) ∧
    (∀ sid idx delta, cartWf sup (adjustQuantity cart sid idx delta).cart) ∧
    (∀ outcome, cartWf sup (saveOrder cart outcome).cart) ∧
    (∀ outcome, (∀ p ∈ cart, outcome p.1 = Except.ok ()) →
      (saveOrder cart outcome).cart = []) := by
  have hempty : cartWf sup [] := ⟨List.nodup_nil, by intro p hp; simp at hp⟩
  have hsetq : ∀ sid idx (f : CartItem → CartItem),
      (∀ i, (f i).product_id = i.product_id) →
      cartWf sup (cartModify cart sid (fun g =>
        { g with items := listModify g.items idx f })) := by
    intro sid idx f hpid
    apply cartWf_cartModify_of sup cart sid _ hwf.1
    intro q hq
    by_cases hqs : q.1 = sid
    · rw [if_pos hqs]
      exact groupWf_listModify sup q.1 q.2 idx f hpid (hwf.2 q hq)
    · rw [if_neg hqs]
      exact hwf.2 q hq
  refine ⟨?_, ?_, ?_, ?_, ?_, ?_, ?_⟩
  · intro pid product hid hsup
    cases hkey : cartHasKey cart product.supplier_id with
    | true =>
        simp only [addProductToCart, hkey, if_true]
        apply cartWf_cartModify_of sup cart product.supplier_id _ hwf.1
        intro q hq
        by_cases hqs : q.1 = product.supplier_id
        · rw [if_pos hqs, hqs]
          exact groupWf_addProductToCartStep sup pid product hid hsup q.2
            (hwf.2 q hq).2.1 (fun i hi => hqs ▸ (hwf.2 q hq).2.2 i hi)
        · rw [if_neg hqs]
          exact hwf.2 q hq
    | false =>
        simp only [addProductToCart, hkey, Bool.false_eq_true, if_false]
        have hnot := cartHasKey_eq_false cart product.supplier_id hkey
        apply cartWf_cartModify_of sup _ product.supplier_id _
        · unfold cartKeysNodup
          rw [List.map_append, List.nodup_append]
          refine ⟨hwf.1, by simp, ?_⟩
          intro a ha hb
          simp only [List.map_cons, List.map_nil, List.mem_singleton] at hb
          rw [hb] at ha
          exact hnot ha
        · intro q hq
          rcases List.mem_append.1 hq with h3 | h3
          · have hqs : q.1 ≠ product.supplier_id := by
              intro he
              exact hnot (he ▸ List.mem_map.2 ⟨q, h3, rfl⟩)
            rw [if_neg hqs]
            exact hwf.2 q h3
          · have hq2 : q = (product.supplier_id,
                { supplierName := jsOrStr product.supplier_name "未知厂家",
                  items := [] }) := List.mem_singleton.1 h3
            rw [hq2]
            rw [if_pos rfl]
            exact groupWf_addProductToCartStep sup pid product hid hsup _
              (by simp) (by intro i hi; simp at hi)
  · intro sid idx
    unfold removeFromCart
    constructor
    · unfold cartKeysNodup
      have hsub : List.Sublist
          (((cartModify cart sid (fun g =>
            { g with items := g.items.eraseIdx idx })).filter
              (fun p => !(p.1 == sid && p.2.items.isEmpty))).map Prod.fst)
          ((cartModify cart sid (fun g =>
            { g with items := g.items.eraseIdx idx })).map Prod.fst) :=
        (List.filter_sublist _).map Prod.fst
      refine List.Nodup.sublist hsub ?_
      rw [cartModify_map_fst]
      exact hwf.1
    · intro p hp
      have hp2 := List.mem_filter.1 hp
      rcases mem_cartModify_eq _ _ _ _ hp2.1 with ⟨q, hq, h1, h2⟩
      by_cases hqs : q.1 = sid
      · rw [if_pos hqs] at h2
        have hwq := hwf.2 q hq
        refine ⟨?_, ?_, ?_⟩
        · intro hnil
          have hcond := hp2.2
          rw [h1, hqs, hnil] at hcond
          simp at hcond
        · rw [h2]
          exact List.Nodup.sublist ((List.eraseIdx_sublist _ _).map _) hwq.2.1
        · intro i hi
          rw [h2] at hi
          rw [h1, hqs]
          rw [hqs] at hwq
          exact hwq.2.2 i ((List.eraseIdx_sublist _ _).subset hi)
      · rw [if_neg hqs] at h2
        rw [h1, h2]
        exact hwf.2 q hq
  · intro sid idx
    exact hsetq sid idx _ (fun i => rfl)
  · intro sid idx value
    cases hv : jsParseInt value with
    | none => simpa [updateCartQuantity, hv] using hwf
    | some q =>
        by_cases hq : q < 1
        · simpa [updateCartQuantity, hv, if_pos hq] using hwf
        · simp only [updateCartQuantity, hv, if_neg hq]
          exact hsetq sid idx _ (fun i => rfl)
  · intro sid idx delta
    by_cases hd : storedQuantity cart sid idx + delta < 1
    · simpa [adjustQuantity, if_pos hd] using hwf
    · simp only [adjustQuantity, if_neg hd]
      exact hsetq sid idx _ (fun i => rfl)
  · intro outcome
    unfold saveOrder
    by_cases he : cart.isEmpty
    · rw [if_pos he]
      simpa using hwf
    · rw [if_neg he]
      cases hl : (saveOrderLoop outcome cart).2 with
      | none => simpa [hl] using hempty
      | some e => simpa [hl] using hwf
  · intro outcome hok
    unfold saveOrder
    by_cases he : cart.isEmpty
    · rw [if_pos he]
      exact List.isEmpty_iff.1 he
    · rw [if_neg he]
      have hloop : ∀ c : Cart, (∀ p ∈ c, outcome p.1 = Except.ok ()) →
          (saveOrderLoop outcome c).2 = none := by
        intro c
        induction c with
        | nil => intro _; rfl
        | cons p ps ih =>
            intro h
            have hp := h p (List.mem_cons_self p ps)
            simp [saveOrderLoop, hp, ih (fun q hq => h q (List.mem_cons_of_mem p hq))]
      simp [hloop cart hok]

/-- Witness for C2: adding a product to the sample cart under the
catalog that maps products 1, 2 to supplier 1 and product 3 to
supplier 2 keeps the invariant. -/
theorem cart_operations_preserve_invariant_witness :
    cartWf (fun pid => if pid ≤ 2 then 1 else 2)
      (addProductToCart 2
        { id := 2, supplier_id := 1, supplier_name := some "厂家甲", name := "商品B",
          brand := none, model := none, specification := none,
          internal_price := none, tax_included_price := 3 } sampleCart) :=
  (cart_operations_preserve_invariant (fun pid => if pid ≤ 2 then 1 else 2) sampleCart
    (by decide)).1 2
    { id := 2, supplier_id := 1, supplier_name := some "厂家甲", name := "商品B",
      brand := none, model := none, specification := none,
      internal_price := none, tax_included_price := 3 } (by decide) (by decide)

/-- Witness for C10: setting the first item of supplier 1 in the sample
cart to quantity 5 through the input field. -/
theorem quantity_update_operations_correct_witness :
    getCartItem (updateCartQuantity sampleCart 1 0 "5").cart 1 0 =
      some { sampleItem1 with quantity := 5 } ∧
    (updateCartQuantity sampleCart 1 0 "5").inputWrite = none := by
  have h := (quantity_update_operations_correct sampleCart 1 0 sampleItem1
    (by decide)).2.2.1 "5" 5 (by decide) (by decide)
  exact ⟨h.1, h.2.2⟩

/-! ### `saveOrder` request/error behavior (claim C3) -/

theorem saveOrderLoop_all_ok (outcome : Int → Except String Unit) (cart : Cart)
    (h : ∀ p ∈ cart, outcome p.1 = Except.ok ()) :
    saveOrderLoop outcome cart = (cart.map groupRequest, none) := by
  induction cart with
  | nil => rfl
  | cons p ps ih =>
      have hp := h p (List.mem_cons_self p ps)
      simp [saveOrderLoop, hp, ih (fun q hq => h q (List.mem_cons_of_mem p hq))]

theorem saveOrderLoop_error (outcome : Int → Except String Unit) (cart : Cart)
    (h : ∃ p ∈ cart, ∃ e, outcome p.1 = Except.error e) :
    ∃ e, (saveOrderLoop outcome cart).2 = some e := by
  induction cart with
  | nil =>
      rcases h with ⟨p, hp, _⟩
      simp at hp
  | cons p ps ih =>
      cases hoc : outcome p.1 with
      | error e => exact ⟨e, by simp [saveOrderLoop, hoc]⟩
      | ok u =>
          rcases h with ⟨q, hq, e, he⟩
          rcases List.mem_cons.1 hq with h2 | h2
          · rw [h2, hoc] at he
            simp at he
          · rcases ih ⟨q, h2, e, he⟩ with ⟨e2, he2⟩
            exact ⟨e2, by simp [saveOrderLoop, hoc, he2]⟩

theorem saveOrderLoop_requests_prefix (outcome : Int → Except String Unit) (cart : Cart) :
    ∃ n, (saveOrderLoop outcome cart).1 = (cart.map groupRequest).take n := by
  induction cart with
  | nil => exact ⟨0, rfl⟩
  | cons p ps ih =>
      cases hoc : outcome p.1 with
      | ok u =>
          rcases ih with ⟨n, hn⟩
          exact ⟨n + 1, by simp [saveOrderLoop, hoc, hn]⟩
      | error e => exact ⟨1, by simp [saveOrderLoop, hoc]⟩

/-- The concrete outcome used in the C3 counterexample: supplier 1's
request fails, every other succeeds. -/
def sampleFailingOutcome : Int → Except String Unit :=
  fun sid => if sid = 1 then Except.error "网络错误" else Except.ok ()

/-- C3 counterexample: on the two-group sample cart with the first
request failing, `saveOrder` issues only one request — not one per
supplier group — before stopping (the cart stays unchanged and exactly
one error toast is shown, which the amended claim keeps). -/
theorem saveOrder_failure_not_one_request_per_group :
    (saveOrder sampleCart sampleFailingOutcome).requests.length = 1 ∧
    sampleCart.length = 2 ∧
    (saveOrder sampleCart sampleFailingOutcome).cart = sampleCart ∧
    (saveOrder sampleCart sampleFailingOutcome).messages =
      [("保存订单失败: 网络错误", "error")] := by
  refine ⟨?_, rfl, ?_, ?_⟩ <;> rfl

/-- C3 amended: on a non-empty cart `saveOrder` issues the per-group
requests in order, stopping at the first failure (the issued requests
are a prefix of the per-group payload list, hence at most one per
group, each carrying the group's items with all their fields and the
group's supplier id); if every request succeeds there is exactly one
request per supplier group and the cart becomes empty; if any request
fails exactly one error message is reported and the cart mapping is
left unchanged. -/
theorem saveOrder_requests_and_error_handling (cart : Cart)
    (outcome : Int → Except String Unit) (hne : cart ≠ []) :
    ((∀ p ∈ cart, outcome p.1 = Except.ok ()) →
      (saveOrder cart outcome).requests = cart.map groupRequest ∧
      (saveOrder cart outcome).cart = [] ∧
      (saveOrder cart outcome).messages = [("订单保存成功", "success")]) ∧
    ((∃ p ∈ cart, ∃ e, outcome p.1 = Except.error e) →
      (∃ e, (saveOrder cart outcome).messages = [("保存订单失败: " ++ e, "error")]) ∧
      (saveOrder cart outcome).cart = cart) ∧
    (∃ n, (saveOrder cart outcome).requests = (cart.map groupRequest).take n) := by
  have hie : cart.isEmpty = false := by
    cases cart with
    | nil => exact absurd rfl hne
    | cons p ps => rfl
  refine ⟨?_, ?_, ?_⟩
  · intro hok
    simp [saveOrder, hie, saveOrderLoop_all_ok outcome cart hok]
  · intro herr
    rcases saveOrderLoop_error outcome cart herr with ⟨e, he⟩
    refine ⟨⟨e, ?_⟩, ?_⟩ <;> simp [saveOrder, hie, he]
  · rcases saveOrderLoop_requests_prefix outcome cart with ⟨n, hn⟩
    refine ⟨n, ?_⟩
    cases hl : (saveOrderLoop outcome cart).2 with
    | none => simp [saveOrder, hie, hl, ← hn]
    | some e => simp [saveOrder, hie, hl, ← hn]

/-- The all-success outcome used by the C3 witness. -/
def sampleOkOutcome : Int → Except String Unit := fun _ => Except.ok ()

/-- Witness for the amended C3: both sample-cart requests succeed, one
request per group is issued and the cart empties. -/
theorem saveOrder_requests_and_error_handling_witness :
    (saveOrder sampleCart sampleOkOutcome).requests = sampleCart.map groupRequest ∧
    (saveOrder sampleCart sampleOkOutcome).cart = [] ∧
    (saveOrder sampleCart sampleOkOutcome).messages = [("订单保存成功", "success")] :=
  (saveOrder_requests_and_error_handling sampleCart sampleOkOutcome
    (by decide)).1 (fun p hp => rfl)

/-! ### Request / toast behavior of the handlers (claim C4) -/

/-- The externally visible effects of one handler run: the endpoints it
hit, the `showMessage` toasts it raised, the `console.error` lines it
wrote. -/
structure HandlerRun where
  requests : List String
  toasts : List (String × String)
  console : List String
deriving DecidableEq

/-- `checkAuth`, `auth.js` lines 6-13 (also `part_000`): a single
request to `/users/me`; on failure it returns `null` and shows
nothing. -/
def checkAuthRun (outcome : Except String User) : HandlerRun × Option User :=
  match outcome with
  | Except.ok u => (⟨["/users/me"], [], []⟩, some u)
  | Except.error _ => (⟨["/users/me"], [], []⟩, none)

/-- `logout`, `auth.js` lines 29-38: a single request; on failure only
`console.error('登出失败:', error)`, no toast. -/
def logoutRun (outcome : Except String Unit) : HandlerRun :=
  match outcome with
  | Except.ok _ => ⟨["/users/logout"], [], []⟩
  | Except.error e => ⟨["/users/logout"], [], ["登出失败:", e]⟩

/-- The effects of `addProductToCart`, `part_001` lines 8-43. -/
def addProductToCartRun (productId : Int) (outcome : Except String Product) (cart : Cart) :
    HandlerRun × Cart :=
  match outcome with
  | Except.ok p =>
      (⟨["/products/" ++ toString productId], [("已添加到购物车", "success")], []⟩,
       addProductToCart productId p cart)
  | Except.error e =>
      (⟨["/products/" ++ toString productId],
        [("添加到购物车失败: " ++ e, "error")], []⟩, cart)

/-- `loadProducts`, `products.js` lines 10-42. -/
def loadProductsRun (outcome : Except String Unit) : HandlerRun :=
  match outcome with
  | Except.ok _ => ⟨["/products/"], [], []⟩
  | Except.error e => ⟨["/products/"], [("加载商品列表失败: " ++ e, "error")], []⟩

/-- `loadOrders`, `orders.js` lines 9-32. -/
def loadOrdersRun (outcome : Except String Unit) : HandlerRun :=
  match outcome with
  | Except.ok _ => ⟨["/orders/"], [], []⟩
  | Except.error e => ⟨["/orders/"], [("加载订单列表失败: " ++ e, "error")], []⟩

/-- `loadServices`, `statistics.js` lines 65-88. -/
def loadServicesRun (outcome : Except String Unit) : HandlerRun :=
  match outcome with
  | Except.ok _ => ⟨["/services/"], [], []⟩
  | Except.error e => ⟨["/services/"], [("加载服务记录列表失败: " ++ e, "error")], []⟩

/-- `loadStatistics`, `statistics.js` lines 6-13. -/
def loadStatisticsRun (outcome : Except String Unit) : HandlerRun :=
  match outcome with
  | Except.ok _ => ⟨["/statistics/"], [], []⟩
  | Except.error e => ⟨["/statistics/"], [("加载统计信息失败: " ++ e, "error")], []⟩

/-- The shape shared by every single-request handler of the client:
issue the one request; on success show the (possibly empty) success
toasts, on failure show exactly one toast made of a fixed prefix
followed by the raw error text. Each handler below instantiates it with
its endpoint and texts, taken verbatim from its source. -/
def simpleHandlerRun (endpoint : String) (successToasts : List (String × String))
    (failPrefix : String) (outcome : Except String Unit) : HandlerRun :=
  match outcome with
  | Except.ok _ => ⟨[endpoint], successToasts, []⟩
  | Except.error e => ⟨[endpoint], [(failPrefix ++ e, "error")], []⟩

/-- `loadUsers`, `settings.js` lines 45-52. -/
def loadUsersRun : Except String Unit → HandlerRun :=
  simpleHandlerRun "/users/" [] "加载用户列表失败: "

/-- `viewOrderDetail`, `orders.js` lines 115-161. -/
def viewOrderDetailRun (orderId : Int) : Except String Unit → HandlerRun :=
  simpleHandlerRun ("/orders/" ++ toString orderId) [] "加载订单详情失败: "

/-- `viewServiceDetail`, `statistics.js` lines 156-181. -/
def viewServiceDetailRun (serviceId : Int) : Except String Unit → HandlerRun :=
  simpleHandlerRun ("/services/" ++ toString serviceId) [] "加载服务记录详情失败: "

/-- The record fetch of `openProductModal`, `products.js` lines
113-120: toast and abort on failure. -/
def openProductModalProductFetchRun (productId : Int) : Except String Unit → HandlerRun :=
  simpleHandlerRun ("/products/" ++ toString productId) [] "加载商品信息失败: "

/-- The record fetch of `openServiceModal`, `statistics.js` lines
245-252: toast and abort on failure. -/
def openServiceModalServiceFetchRun (serviceId : Int) : Except String Unit → HandlerRun :=
  simpleHandlerRun ("/services/" ++ toString serviceId) [] "加载服务记录信息失败: "

/-- `submitOrder`, `orders.js` lines 164-176 (the path past the confirm
dialog; cancelling issues no request). -/
def submitOrderRun (orderId : Int) : Except String Unit → HandlerRun :=
  simpleHandlerRun ("/orders/" ++ toString orderId ++ "/status?new_status=发起")
    [("订单发起成功", "success")] "发起订单失败: "

/-- `confirmOrder`, `orders.js` lines 179-191. -/
def confirmOrderRun (orderId : Int) : Except String Unit → HandlerRun :=
  simpleHandlerRun ("/orders/" ++ toString orderId ++ "/status?new_status=确认")
    [("订单确认成功", "success")] "确认订单失败: "

/-- `deleteOrder`, `orders.js` lines 205-217. -/
def deleteOrderRun (orderId : Int) : Except String Unit → HandlerRun :=
  simpleHandlerRun ("/orders/" ++ toString orderId)
    [("订单删除成功", "success")] "删除订单失败: "

/-- `submitService`, `statistics.js` lines 184-196. -/
def submitServiceRun (serviceId : Int) : Except String Unit → HandlerRun :=
  simpleHandlerRun ("/services/" ++ toString serviceId ++ "/status?new_status=发起")
    [("服务记录发起成功", "success")] "发起服务记录失败: "

/-- `confirmService`, `statistics.js` lines 199-211. -/
def confirmServiceRun (serviceId : Int) : Except String Unit → HandlerRun :=
  simpleHandlerRun ("/services/" ++ toString serviceId ++ "/status?new_status=确认")
    [("服务记录确认成功", "success")] "确认服务记录失败: "

/-- `deleteService`, `statistics.js` lines 225-237. -/
def deleteServiceRun (serviceId : Int) : Except String Unit → HandlerRun :=
  simpleHandlerRun ("/services/" ++ toString serviceId)
    [("服务记录删除成功", "success")] "删除服务记录失败: "

/-- The request of `saveProduct` past the input validation,
`products.js` lines 253-274: PUT when editing, POST when creating. -/
def saveProductRun (productId : Option Int) : Except String Unit → HandlerRun :=
  match productId with
  | some i =>
      simpleHandlerRun ("/products/" ++ toString i)
        [("商品更新成功", "success")] "更新商品失败: "
  | none =>
      simpleHandlerRun "/products/" [("商品创建成功", "success")] "创建商品失败: "

/-- `deleteProduct`, `products.js` lines 283-295. -/
def deleteProductRun (productId : Int) : Except String Unit → HandlerRun :=
  simpleHandlerRun ("/products/" ++ toString productId)
    [("商品删除成功", "success")] "删除商品失败: "

/-- The request of `saveService` past the validation, `statistics.js`
lines 436-460. -/
def saveServiceRun (serviceId : Option Int) : Except String Unit → HandlerRun :=
  match serviceId with
  | some i =>
      simpleHandlerRun ("/services/" ++ toString i)
        [("服务记录更新成功", "success")] "更新服务记录失败: "
  | none =>
      simpleHandlerRun "/services/" [("服务记录创建成功", "success")] "创建服务记录失败: "

/-- The request of `changePassword` past the validation, `settings.js`
lines 17-42. -/
def changePasswordRun : Except String Unit → HandlerRun :=
  simpleHandlerRun "/users/me/password" [("密码修改成功", "success")] "密码修改失败: "

/-- `editUserPassword`, `settings.js` lines 99-113 (the path past the
prompt). -/
def editUserPasswordRun (userId : Int) : Except String Unit → HandlerRun :=
  simpleHandlerRun ("/users/" ++ toString userId ++ "/password")
    [("密码修改成功", "success")] "密码修改失败: "

/-- The contact-form submit inside `editUserContact`, `settings.js`
lines 155-172. -/
def editUserContactSubmitRun (userId : Int) : Except String Unit → HandlerRun :=
  simpleHandlerRun ("/users/" ++ toString userId ++ "/contact")
    [("联系方式修改成功", "success")] "联系方式修改失败: "

/-- `deleteUser`, `settings.js` lines 177-189. -/
def deleteUserRun (userId : Int) : Except String Unit → HandlerRun :=
  simpleHandlerRun ("/users/" ++ toString userId)
    [("用户删除成功", "success")] "删除用户失败: "

/-- `createUserFromForm` / `createUser` past the validation,
`settings.js` lines 296-383. -/
def createUserRun : Except String Unit → HandlerRun :=
  simpleHandlerRun "/users/" [("用户创建成功", "success")] "创建用户失败: "

/-- `exportOrder`, `orders.js` lines 220-248: first the order fetch,
then the export download; either failure yields the one export-failure
toast; nothing is retried. -/
def exportOrderRun (orderId : Int) (oc1 oc2 : Except String Unit) : HandlerRun :=
  match oc1 with
  | Except.error e =>
      ⟨["/orders/" ++ toString orderId], [("导出订单失败: " ++ e, "error")], []⟩
  | Except.ok _ =>
      match oc2 with
      | Except.error e =>
          ⟨["/orders/" ++ toString orderId,
            "/api/orders/" ++ toString orderId ++ "/export"],
           [("导出订单失败: " ++ e, "error")], []⟩
      | Except.ok _ =>
          ⟨["/orders/" ++ toString orderId,
            "/api/orders/" ++ toString orderId ++ "/export"],
           [("订单导出成功", "success")], []⟩

/-- `loadServiceSuppliers`, `statistics.js` lines 366-381: failure goes
to `console.error('加载厂家列表失败:', error)` only, NO toast (the
supplier list is fetched through the shared `getSuppliers` helper,
which is not among the sources; `/api/suppliers/` is the endpoint
`products.js` uses for the same list). -/
def loadServiceSuppliersRun (outcome : Except String Unit) : HandlerRun :=
  match outcome with
  | Except.ok _ => ⟨["/api/suppliers/"], [], []⟩
  | Except.error e => ⟨["/api/suppliers/"], [], ["加载厂家列表失败:", e]⟩

/-- The supplier-list fetch of `openProductModal`, `products.js` lines
123-131: failure falls back to a list built from the product, with no
toast and no console line. -/
def openProductModalSuppliersRun (outcome : Except String Unit) : HandlerRun :=
  match outcome with
  | Except.ok _ => ⟨["/api/suppliers/"], [], []⟩
  | Except.error _ => ⟨["/api/suppliers/"], [], []⟩

/-- The supplier-list fetches of `openServiceModal`, `statistics.js`
lines 276-296 (both call sites): failure falls back silently. -/
def openServiceModalSuppliersRun (outcome : Except String Unit) : HandlerRun :=
  match outcome with
  | Except.ok _ => ⟨["/api/suppliers/"], [], []⟩
  | Except.error _ => ⟨["/api/suppliers/"], [], []⟩

/-- The `/users/me` refetch of `openServiceModal` for a `厂家` user,
`statistics.js` lines 255-269: failure writes the console line and
toasts the FIXED text `获取用户信息失败，请刷新页面重试` — a toast that
does not contain the raw error text. -/
def openServiceModalUserFetchRun (outcome : Except String Unit) : HandlerRun :=
  match outcome with
  | Except.ok _ => ⟨["/users/me"], [], []⟩
  | Except.error e =>
      ⟨["/users/me"], [("获取用户信息失败，请刷新页面重试", "error")],
       ["获取用户信息失败:", e]⟩

/-- The user-list fetch at the top of `editUserContact`, `settings.js`
line 117: it sits OUTSIDE the try, so a failure is an unhandled
rejection — nothing is surfaced at all. -/
def editUserContactUsersFetchRun (outcome : Except String Unit) : HandlerRun :=
  match outcome with
  | Except.ok _ => ⟨["/users/"], [], []⟩
  | Except.error _ => ⟨["/users/"], [], []⟩

/-- What a login/register form submission leaves behind, `auth.js`
lines 90-125 and 128-176 (`login`/`register` themselves rethrow to
these handlers). -/
structure LoginFormRun where
  requests : List String
  banner : Option String
  redirect : Option String
deriving DecidableEq

/-- The login-form submit handler, `auth.js` lines 90-125: on a thrown
failure the page banner shows `error.message || '登录失败，请检查网络
连接'`; on a `success: false` response it shows `result.message ||
'登录失败'`; on success it redirects. -/
def loginFormSubmitRun (outcome : Except String (Bool × Option String)) : LoginFormRun :=
  match outcome with
  | Except.ok (true, _) => ⟨["/users/login"], none, some "/main"⟩
  | Except.ok (false, m) => ⟨["/users/login"], some (jsOrStr m "登录失败"), none⟩
  | Except.error e =>
      ⟨["/users/login"], some (jsOrStr (some e) "登录失败，请检查网络连接"), none⟩

/-- The register-form submit handler, `auth.js` lines 128-176 (the path
past the local password checks, which issue no request). -/
def registerFormSubmitRun (outcome : Except String (Bool × Option String)) : LoginFormRun :=
  match outcome with
  | Except.ok (true, _) => ⟨["/users/register"], some "注册成功，正在跳转...", some "/main"⟩
  | Except.ok (false, m) => ⟨["/users/register"], some (jsOrStr m "注册失败"), none⟩
  | Except.error e =>
      ⟨["/users/register"], some (jsOrStr (some e) "注册失败，请检查网络连接"), none⟩

/-- C4 counterexample: several request-issuing operations surface no
toast with the raw error text on failure: `checkAuth` silently returns
`null` (`auth.js` line 11), `logout` (line 36) and
`loadServiceSuppliers` (`statistics.js` line 379) write only to the
console, the supplier-list fetches of the two modal openers and the
user-list fetch of `editUserContact` fall back or crash silently, and
`openServiceModal`'s user-info refetch toasts a fixed text that is the
same for every error, so it cannot contain the raw error text. -/
theorem handlers_fail_without_raw_error_toast :
    (checkAuthRun (Except.error "网络错误")).1.toasts = [] ∧
    (checkAuthRun (Except.error "网络错误")).2 = none ∧
    (logoutRun (Except.error "网络错误")).toasts = [] ∧
    (logoutRun (Except.error "网络错误")).console = ["登出失败:", "网络错误"] ∧
    (loadServiceSuppliersRun (Except.error "网络错误")).toasts = [] ∧
    (loadServiceSuppliersRun (Except.error "网络错误")).console =
      ["加载厂家列表失败:", "网络错误"] ∧
    (openProductModalSuppliersRun (Except.error "网络错误")).toasts = [] ∧
    (openServiceModalSuppliersRun (Except.error "网络错误")).toasts = [] ∧
    (editUserContactUsersFetchRun (Except.error "网络错误")).toasts = [] ∧
    (openServiceModalUserFetchRun (Except.error "网络错误")).toasts =
      [("获取用户信息失败，请刷新页面重试", "error")] ∧
    (openServiceModalUserFetchRun (Except.error "另一个错误")).toasts =
      (openServiceModalUserFetchRun (Except.error "网络错误")).toasts :=
  ⟨rfl, rfl, rfl, rfl, rfl, rfl, rfl, rfl, rfl, rfl, rfl⟩

/-- C4 amended: every backend-requesting handler of the sources issues
each of its requests exactly once (no retry). On failure, every
product/order/service/statistics/user loading and mutation handler —
`addProductToCart`, `saveOrder`, the four list loaders, `loadUsers`,
the detail views, the modal record fetches, submit/confirm/delete for
orders and services, `exportOrder`, save/delete for products, services
and users, and the password/contact forms — raises exactly one toast
made of its fixed prefix followed by the raw error text, and the
login/register form handlers put the raw error text into the page
banner. The exceptions are: `checkAuth` (silently null), `logout` and
`loadServiceSuppliers` (console only), the silent supplier-list
fallbacks of the two modal openers, the uncaught user-list fetch of
`editUserContact`, and `openServiceModal`'s user-info refetch, whose
toast is a fixed text without the raw error. -/
theorem handlers_single_request_error_toasts (e : String)
    (productId orderId serviceId userId : Int) (cart : Cart) :
    (e ≠ "" →
      (loginFormSubmitRun (Except.error e)).banner = some e ∧
      (registerFormSubmitRun (Except.error e)).banner = some e) ∧
    (loginFormSubmitRun (Except.error e)).banner =
      some (jsOrStr (some e) "登录失败，请检查网络连接") ∧
    (registerFormSubmitRun (Except.error e)).banner =
      some (jsOrStr (some e) "注册失败，请检查网络连接") ∧
    (addProductToCartRun productId (Except.error e) cart).1.toasts =
      [("添加到购物车失败: " ++ e, "error")] ∧
    (addProductToCartRun productId (Except.error e) cart).2 = cart ∧
    (loadProductsRun (Except.error e)).toasts = [("加载商品列表失败: " ++ e, "error")] ∧
    (loadOrdersRun (Except.error e)).toasts = [("加载订单列表失败: " ++ e, "error")] ∧
    (loadServicesRun (Except.error e)).toasts = [("加载服务记录列表失败: " ++ e, "error")] ∧
    (loadStatisticsRun (Except.error e)).toasts = [("加载统计信息失败: " ++ e, "error")] ∧
    (loadUsersRun (Except.error e)).toasts = [("加载用户列表失败: " ++ e, "error")] ∧
    (viewOrderDetailRun orderId (Except.error e)).toasts =
      [("加载订单详情失败: " ++ e, "error")] ∧
    (viewServiceDetailRun serviceId (Except.error e)).toasts =
      [("加载服务记录详情失败: " ++ e, "error")] ∧
    (openProductModalProductFetchRun productId (Except.error e)).toasts =
      [("加载商品信息失败: " ++ e, "error")] ∧
    (openServiceModalServiceFetchRun serviceId (Except.error e)).toasts =
      [("加载服务记录信息失败: " ++ e, "error")] ∧
    (submitOrderRun orderId (Except.error e)).toasts = [("发起订单失败: " ++ e, "error")] ∧
    (confirmOrderRun orderId (Except.error e)).toasts = [("确认订单失败: " ++ e, "error")] ∧
    (deleteOrderRun orderId (Except.error e)).toasts = [("删除订单失败: " ++ e, "error")] ∧
    (exportOrderRun orderId (Except.error e) (Except.ok ())).toasts =
      [("导出订单失败: " ++ e, "error")] ∧
    (exportOrderRun orderId (Except.ok ()) (Except.error e)).toasts =
      [("导出订单失败: " ++ e, "error")] ∧
    (submitServiceRun serviceId (Except.error e)).toasts =
      [("发起服务记录失败: " ++ e, "error")] ∧
    (confirmServiceRun serviceId (Except.error e)).toasts =
      [("确认服务记录失败: " ++ e, "error")] ∧
    (deleteServiceRun serviceId (Except.error e)).toasts =
      [("删除服务记录失败: " ++ e, "error")] ∧
    (saveProductRun (some productId) (Except.error e)).toasts =
      [("更新商品失败: " ++ e, "error")] ∧
    (saveProductRun none (Except.error e)).toasts = [("创建商品失败: " ++ e, "error")] ∧
    (deleteProductRun productId (Except.error e)).toasts =
      [("删除商品失败: " ++ e, "error")] ∧
    (saveServiceRun (some serviceId) (Except.error e)).toasts =
      [("更新服务记录失败: " ++ e, "error")] ∧
    (saveServiceRun none (Except.error e)).toasts = [("创建服务记录失败: " ++ e, "error")] ∧
    (changePasswordRun (Except.error e)).toasts = [("密码修改失败: " ++ e, "error")] ∧
    (editUserPasswordRun userId (Except.error e)).toasts =
      [("密码修改失败: " ++ e, "error")] ∧
    (editUserContactSubmitRun userId (Except.error e)).toasts =
      [("联系方式修改失败: " ++ e, "error")] ∧
    (deleteUserRun userId (Except.error e)).toasts = [("删除用户失败: " ++ e, "error")] ∧
    (createUserRun (Except.error e)).toasts = [("创建用户失败: " ++ e, "error")] ∧
    (saveOrder sampleCart (fun _ => Except.error e)).messages =
      [("保存订单失败: " ++ e, "error")] ∧
    (saveOrder sampleCart (fun _ => Except.error e)).cart = sampleCart ∧
    (saveOrder sampleCart (fun _ => Except.error e)).requests.length = 1 ∧
    (∀ endpoint st fp oc, (simpleHandlerRun endpoint st fp oc).requests = [endpoint]) ∧
    (∀ oc : Except String Product,
      (addProductToCartRun productId oc cart).1.requests =
        ["/products/" ++ toString productId]) ∧
    (∀ oc : Except String User, (checkAuthRun oc).1.requests = ["/users/me"]) ∧
    (∀ oc : Except String Unit, (logoutRun oc).requests = ["/users/logout"]) ∧
    (∀ oc, (loginFormSubmitRun oc).requests = ["/users/login"]) ∧
    (∀ oc, (registerFormSubmitRun oc).requests = ["/users/register"]) ∧
    (∀ oc2, (exportOrderRun orderId (Except.ok ()) oc2).requests =
      ["/orders/" ++ toString orderId,
       "/api/orders/" ++ toString orderId ++ "/export"]) ∧
    (exportOrderRun orderId (Except.error e) (Except.ok ())).requests =
      ["/orders/" ++ toString orderId] ∧
    (checkAuthRun (Except.error e)).1.toasts = [] ∧
    (logoutRun (Except.error e)).toasts = [] ∧
    (loadServiceSuppliersRun (Except.error e)).toasts = [] ∧
    (openProductModalSuppliersRun (Except.error e)).toasts = [] ∧
    (openServiceModalSuppliersRun (Except.error e)).toasts = [] ∧
    (editUserContactUsersFetchRun (Except.error e)).toasts = [] ∧
    (openServiceModalUserFetchRun (Except.error e)).toasts =
      [("获取用户信息失败，请刷新页面重试", "error")] := by
  refine ⟨?_, rfl, rfl, rfl, rfl, rfl, rfl, rfl, rfl, rfl, rfl, rfl, rfl, rfl, rfl, rfl,
    rfl, rfl, rfl, rfl, rfl, rfl, rfl, rfl, rfl, rfl, rfl, rfl, rfl, rfl, rfl, rfl, rfl,
    rfl, rfl, ?_, ?_, ?_, ?_, ?_, ?_, ?_, rfl, rfl, rfl, rfl, rfl, rfl, rfl, rfl⟩
  · intro h
    constructor <;> simp [loginFormSubmitRun, registerFormSubmitRun, jsOrStr, h]
  · intro endpoint st fp oc
    cases oc <;> rfl
  · intro oc
    cases oc <;> rfl
  · intro oc
    cases oc <;> rfl
  · intro oc
    cases oc <;> rfl
  · intro oc
    cases oc with
    | error e2 => rfl
    | ok v =>
        rcases v with ⟨b, m⟩
        cases b <;> rfl
  · intro oc
    cases oc with
    | error e2 => rfl
    | ok v =>
        rcases v with ⟨b, m⟩
        cases b <;> rfl
  · intro oc2
    cases oc2 <;> rfl

/-- Witness for the amended C4: a concrete non-empty error text reaches
the login and register banners verbatim. -/
theorem handlers_single_request_error_toasts_witness :
    (loginFormSubmitRun (Except.error "网络错误")).banner = some "网络错误" ∧
    (registerFormSubmitRun (Except.error "网络错误")).banner = some "网络错误" :=
  (handlers_single_request_error_toasts "网络错误" 1 2 3 4 sampleCart).1 (by decide)

end Bookkeep
